import Mathlib

/-
Verification development for the simulation engine of this repository
(backend/game_loop.py, backend/simulation/{entity,player,area,spatial}.py).

Shallow embedding conventions:
  * Python floats are modelled as exact rationals (ℚ); Python ints as ℤ/ℕ.
  * Python dicts whose key set is fixed by the source (entity attributes,
    the modifiers/stats tables) become Lean structures; free-form dicts
    (skills, abilities, equipment) become insertion-ordered association
    lists, with Python dict semantics (assignment replaces in place,
    iteration follows insertion order).
  * `time.time()` readings are abstracted by a boolean oracle
    `overBudget : ℕ → Bool` telling whether the k-th budget check in a
    drain observed `tick_start + TICK_DURATION < now`.
  * An exception raised by Python code is modelled with `Except`.
-/

namespace Sim

/-! ### Association-list helpers mirroring Python `dict` / `set` semantics -/

/-- Python `d[k] = v`: replace the value in place if the key exists
(keeping its position in iteration order), otherwise append. -/
def dictSet {α : Type} (m : List (String × α)) (k : String) (v : α) :
    List (String × α) :=
  if m.any (fun kv => kv.1 = k) then
    m.map (fun kv => if kv.1 = k then (k, v) else kv)
  else
    m ++ [(k, v)]

/-- Python `d.get(k)` / `k in d` lookup. -/
def dictGet {α : Type} (m : List (String × α)) (k : String) : Option α :=
  (m.find? (fun kv => kv.1 = k)).map (·.2)

/-- Python `del d[k]`. -/
def dictDel {α : Type} (m : List (String × α)) (k : String) :
    List (String × α) :=
  m.filter (fun kv => kv.1 ≠ k)

/-- Python `k in d`. -/
def dictHas {α : Type} (m : List (String × α)) (k : String) : Bool :=
  m.any (fun kv => kv.1 = k)

/-- Python `s.add(x)` on a set (modelled as a duplicate-free list in
insertion order). -/
def setAdd (s : List String) (x : String) : List String :=
  if x ∈ s then s else s ++ [x]

/-- Python `s.discard(x)`. -/
def setDiscard (s : List String) (x : String) : List String :=
  s.filter (fun y => y ≠ x)

/-! ### Entity (backend/simulation/entity.py) -/

/-- The `modifiers` dictionary initialised in `Entity.__init__`.  Its key
set is fixed by the source (nothing in the repository adds or deletes
keys), so it is embedded as a structure; the six attribute sub-dicts are
empty free-form dicts. -/
structure Modifiers where
  action_speed : ℚ
  carrying_capacity : ℚ
  walking_speed : ℚ
  running_speed : ℚ
  crawling_speed : ℚ
  jumping_ability : ℚ
  strength : List (String × ℚ)
  dexterity : List (String × ℚ)
  intelligence : List (String × ℚ)
  perception : List (String × ℚ)
  willpower : List (String × ℚ)
  charisma : List (String × ℚ)
deriving DecidableEq

def defaultModifiers : Modifiers :=
  { action_speed := 1, carrying_capacity := 1, walking_speed := 1,
    running_speed := 1, crawling_speed := 1, jumping_ability := 1,
    strength := [], dexterity := [], intelligence := [],
    perception := [], willpower := [], charisma := [] }

/-- The `stats` dictionary of `Entity.__init__`. -/
structure Stats where
  fame : ℤ
  virtue : ℤ
  infamy : ℤ
deriving DecidableEq

def defaultStats : Stats := { fame := 0, virtue := 0, infamy := 0 }

/-- The `health` dictionary of `Entity.__init__`: a nested dictionary of
body parts whose leaves are all empty dicts everywhere in the source.
It is embedded as its key skeleton (top-level region ↦ list of the keys
of its sub-dict); no code in the repository reads or writes inside it. -/
def Health : Type := List (String × List String)

instance : DecidableEq Health := by
  unfold Health; infer_instance

def defaultHealth : Health :=
  [("head", ["left_eye", "right_eye", "mouth", "tongue", "skull", "brain"]),
   ("torso", ["chest", "stomach", "groin", "left_shoulder", "right_shoulder",
              "upper_back", "lower_back", "heart", "lung_left", "lung_right",
              "neck"]),
   ("left_arm", ["left_forearm", "left_upper_arm", "left_hand"]),
   ("right_arm", ["right_forearm", "right_upper_arm", "right_hand"]),
   ("left_hip", []),
   ("right_hip", []),
   ("left_leg", ["left_thigh", "left_knee", "left_calf", "left_foot"]),
   ("right_leg", ["right_thigh", "right_knee", "right_calf", "right_foot"])]

/-- `Entity` — every attribute set in `Entity.__init__`.  `appearance` is
not created by `__init__`; `Entity.load_from_file` assigns it, so it is
carried here with the empty dict standing for "attribute absent". -/
structure Entity where
  entity_id : String
  current_area_id : Option String
  x : ℚ
  y : ℚ
  z : ℚ
  vx : ℚ
  vy : ℚ
  state : String
  facing : String
  is_dirty : Bool
  animation_data_paths : List String
  name : String
  race : String
  model_version : String
  height : ℤ
  weight : ℤ
  age : ℤ
  dob : String
  gender : String
  hair_style : ℤ
  hair_color : ℤ
  left_eye_color : ℤ
  left_eye_type : ℤ
  right_eye_color : ℤ
  right_eye_type : ℤ
  experience : ℤ
  level : ℤ
  modifiers : Modifiers
  stats : Stats
  skills : List (String × ℤ)
  abilities : List (String × ℤ)
  health : Health
  equipment : List (String × ℤ)
  appearance : List (String × ℤ)
deriving DecidableEq

/-- `Entity.__init__(entity_id, x, y, z, state, facing, animation_data_paths)`.
`x`/`y` default to -10000.0 when passed as `None`, `z` to 0.0. -/
def mkEntity (entity_id : String) (x y z : Option ℚ)
    (state : String) (facing : String)
    (animation_data_paths : Option (List String)) : Entity :=
  { entity_id := entity_id
    current_area_id := none
    x := x.getD (-10000)
    y := y.getD (-10000)
    z := z.getD 0
    vx := 0
    vy := 0
    state := state
    facing := facing
    is_dirty := true
    animation_data_paths := animation_data_paths.getD []
    name := "default"
    race := "human"
    model_version := "00"
    height := 0
    weight := 0
    age := 0
    dob := "01/01/0001"
    gender := "unspecified"
    hair_style := 0
    hair_color := 0
    left_eye_color := 0
    left_eye_type := 0
    right_eye_color := 0
    right_eye_type := 0
    experience := 0
    level := 1
    modifiers := defaultModifiers
    stats := defaultStats
    skills := []
    abilities := []
    health := defaultHealth
    equipment := []
    appearance := [] }

/-- `Entity.__init__` with all optional parameters left at their defaults. -/
def defaultEntity (entity_id : String) (x y : Option ℚ) : Entity :=
  mkEntity entity_id x y none "idle" "down" none

/-- `Entity.update(delta_time)`: advance position by velocity when the
velocity is non-zero, marking the entity dirty; otherwise do nothing. -/
def Entity.update (e : Entity) (delta_time : ℚ) : Entity :=
  if e.vx ≠ 0 ∨ e.vy ≠ 0 then
    { e with x := e.x + e.vx * delta_time,
             y := e.y + e.vy * delta_time,
             is_dirty := true }
  else e

/-- The dictionary returned by `Entity.serialize`. -/
structure EntitySnapshot where
  id : String
  x : ℚ
  y : ℚ
  vx : ℚ
  vy : ℚ
  state : String
  facing : String
  animation_data_paths : List String
  name : String
  race : String
  model_version : String
  height : ℤ
  weight : ℤ
  age : ℤ
  dob : String
  gender : String
  hair_style : ℤ
  hair_color : ℤ
  left_eye_color : ℤ
  left_eye_type : ℤ
  right_eye_color : ℤ
  right_eye_type : ℤ
  experience : ℤ
  level : ℤ
  modifiers : Modifiers
  stats : Stats
  skills : List (String × ℤ)
  abilities : List (String × ℤ)
  health : Health
  equipment : List (String × ℤ)
deriving DecidableEq

/-- `Entity.serialize()`. -/
def Entity.serialize (e : Entity) : EntitySnapshot :=
  { id := e.entity_id, x := e.x, y := e.y, vx := e.vx, vy := e.vy,
    state := e.state, facing := e.facing,
    animation_data_paths := e.animation_data_paths,
    name := e.name, race := e.race, model_version := e.model_version,
    height := e.height, weight := e.weight, age := e.age, dob := e.dob,
    gender := e.gender, hair_style := e.hair_style,
    hair_color := e.hair_color, left_eye_color := e.left_eye_color,
    left_eye_type := e.left_eye_type, right_eye_color := e.right_eye_color,
    right_eye_type := e.right_eye_type, experience := e.experience,
    level := e.level, modifiers := e.modifiers, stats := e.stats,
    skills := e.skills, abilities := e.abilities, health := e.health,
    equipment := e.equipment }

/-- The JSON document written by `Entity.save_to_file`: the same fields as
`serialize` but keyed `entity_id` instead of `id`.  Every key is always
present in the file. -/
structure SavedEntityDoc where
  entity_id : String
  x : ℚ
  y : ℚ
  vx : ℚ
  vy : ℚ
  state : String
  facing : String
  animation_data_paths : List String
  name : String
  race : String
  model_version : String
  height : ℤ
  weight : ℤ
  age : ℤ
  dob : String
  gender : String
  hair_style : ℤ
  hair_color : ℤ
  left_eye_color : ℤ
  left_eye_type : ℤ
  right_eye_color : ℤ
  right_eye_type : ℤ
  experience : ℤ
  level : ℤ
  modifiers : Modifiers
  stats : Stats
  skills : List (String × ℤ)
  abilities : List (String × ℤ)
  health : Health
  equipment : List (String × ℤ)
deriving DecidableEq

/-- `Entity.save_to_file`: the document it serialises to disk. -/
def Entity.save_to_file (e : Entity) : SavedEntityDoc :=
  { entity_id := e.entity_id, x := e.x, y := e.y, vx := e.vx, vy := e.vy,
    state := e.state, facing := e.facing,
    animation_data_paths := e.animation_data_paths,
    name := e.name, race := e.race, model_version := e.model_version,
    height := e.height, weight := e.weight, age := e.age, dob := e.dob,
    gender := e.gender, hair_style := e.hair_style,
    hair_color := e.hair_color, left_eye_color := e.left_eye_color,
    left_eye_type := e.left_eye_type, right_eye_color := e.right_eye_color,
    right_eye_type := e.right_eye_type, experience := e.experience,
    level := e.level, modifiers := e.modifiers, stats := e.stats,
    skills := e.skills, abilities := e.abilities, health := e.health,
    equipment := e.equipment }

/-- `Entity.load_from_file` applied to a saved document.  It constructs the
entity with `entity_id`, `x`, `y`, `animation_data_paths`, then assigns
`vx, vy, state, facing`, the basic info, the physical attributes,
`appearance` (via `data.get("appearance", {})` — the save file has no
such key, so this always yields the empty dict), the progression fields,
and the container fields.  `dict.update` with a document that always
carries every key (as `save_to_file` writes) is wholesale replacement,
which is how the `modifiers`/`stats`/`health` merges are embedded.
Note: the `hair_style`, `hair_color` and four eye fields written by
`save_to_file` are never read back. -/
def Entity.load_from_file (d : SavedEntityDoc) : Entity :=
  let e := mkEntity d.entity_id (some d.x) (some d.y) none "idle" "down"
    (some d.animation_data_paths)
  { e with
    vx := d.vx, vy := d.vy, state := d.state, facing := d.facing,
    name := d.name, race := d.race, model_version := d.model_version,
    height := d.height, weight := d.weight, age := d.age, dob := d.dob,
    gender := d.gender,
    appearance := [],
    experience := d.experience, level := d.level,
    modifiers := d.modifiers,
    stats := d.stats,
    skills := d.skills, abilities := d.abilities,
    health := d.health,
    equipment := d.equipment }

/-! ### Action / command payloads (§6 payload shapes) -/

/-- An action or command payload: the keys the core reads out of the raw
dictionaries handed to `execute_action` / `receive_command` /
`process_party_command`.  A missing key is `none`; `direction` is
flattened to its `x`/`y` entries (a missing `direction` dict and a
`direction` dict missing a coordinate both read as the default 0 via
`.get("x", 0)`). -/
structure ActionData where
  type : Option String
  direction_x : Option ℚ
  direction_y : Option ℚ
  target_entity_id : Option String
  apply_to_party : Bool
  target_id : Option String
  item_id : Option String
  member_id : Option String
deriving DecidableEq

/-- A payload carrying only a `type` and a `direction` dict, e.g.
`{"type": "move", "direction": {"x": dx, "y": dy}}`. -/
def movePayload (dx dy : ℚ) : ActionData :=
  { type := some "move", direction_x := some dx, direction_y := some dy,
    target_entity_id := none, apply_to_party := false,
    target_id := none, item_id := none, member_id := none }

/-- `Entity.receive_command`: the base-class body is `pass`.  (Subclasses
such as `PartyMember` override it; the claims under verification only
involve entities stored in an `Area`'s map, which this development models
with the base behaviour.) -/
def Entity.receive_command (e : Entity) (_command : ActionData) : Entity := e

/-! ### PlayerCharacter (backend/simulation/player.py) -/

/-- The fields of `PlayerCharacter.__init__` that the verified operations
touch.  `controlled_entity_objs` owns the controlled `Entity` values; in
the source these are the same Python objects stored in the `Area`'s
entity map, an aliasing that `Area.process_player_action` models by
writing the mutated entities back into the map (see below). -/
structure PlayerCharacter where
  player_id : String
  player_name : String
  active_entity_index : ℤ
  controlled_entity_ids : List String
  controlled_entity_objs : List Entity
  controlled_entity_history : List String
  entities_controlled : ℤ
deriving DecidableEq

/-- `PlayerCharacter.get_active_entity`: the entity at `active_entity_index`
when that index is in range, else `None`. -/
def PlayerCharacter.get_active_entity (p : PlayerCharacter) : Option Entity :=
  if 0 ≤ p.active_entity_index ∧
      p.active_entity_index < p.controlled_entity_objs.length then
    p.controlled_entity_objs.get? p.active_entity_index.toNat
  else none

/-- The per-entity body of the `for entity in target_entities` loop of
`PlayerCharacter.execute_action` (player.py lines 162–202). -/
def applyActionToEntity (a : ActionData) (e : Entity) : Entity :=
  if a.type = some "move" then
    let speed : ℚ := 50 * e.modifiers.walking_speed
    let vx := (a.direction_x.getD 0) * speed
    let vy := (a.direction_y.getD 0) * speed
    let e1 := { e with vx := vx, vy := vy,
                       state := if vx ≠ 0 ∨ vy ≠ 0 then "moving" else "idle" }
    let e2 :=
      if e1.vy < 0 then { e1 with facing := "up" }
      else if e1.vy > 0 then { e1 with facing := "down" }
      else if e1.vx < 0 then { e1 with facing := "left" }
      else if e1.vx > 0 then { e1 with facing := "right" }
      else e1
    { e2 with is_dirty := true }
  else if a.type = some "attack" then
    { e with state := "attacking", is_dirty := true }
  else if a.type = some "use_item" then
    { e with state := "using_item", is_dirty := true }
  else if a.type = some "interact" then
    { e with state := "interacting", is_dirty := true }
  else e

/-- Python truthiness of the optional string `target_entity_id`
(`elif target_entity_id:`): `None` and the empty string are falsy. -/
def strTruthy : Option String → Bool
  | some s => s ≠ ""
  | none => false

/-- `PlayerCharacter.execute_action`: select the target set (party-wide /
by id / active entity), then mutate each target in place.  The in-place
loop over object references is embedded as a position-preserving map
over `controlled_entity_objs` that transforms exactly the targets;
an empty target set leaves the controller unchanged. -/
def PlayerCharacter.execute_action (p : PlayerCharacter) (a : ActionData) :
    PlayerCharacter :=
  if a.apply_to_party then
    { p with controlled_entity_objs :=
        p.controlled_entity_objs.map (applyActionToEntity a) }
  else if strTruthy a.target_entity_id then
    { p with controlled_entity_objs :=
        p.controlled_entity_objs.map (fun e =>
          if some e.entity_id = a.target_entity_id then
            applyActionToEntity a e
          else e) }
  else
    match p.get_active_entity with
    | none => p
    | some _ =>
      { p with controlled_entity_objs :=
          p.controlled_entity_objs.enum.map (fun ie =>
            if (ie.1 : ℤ) = p.active_entity_index then
              applyActionToEntity a ie.2
            else ie.2) }

/-! ### SpatialGrid (backend/simulation/spatial.py)

Cells are `(col, row) : ℤ × ℤ`; the per-cell id sets and the reverse map
are association lists keyed by the cell / the entity id. -/

structure SpatialGrid where
  width : ℤ
  height : ℤ
  cell_size : ℤ
  cols : ℤ
  rows : ℤ
  grid : List ((ℤ × ℤ) × List String)
  entity_positions : List (String × (ℤ × ℤ))
deriving DecidableEq

/-- `SpatialGrid.__init__(width, height, cell_size=32)`. -/
def mkSpatialGrid (width height : ℤ) (cell_size : ℤ := 32) : SpatialGrid :=
  { width := width, height := height, cell_size := cell_size,
    cols := width / cell_size, rows := height / cell_size,
    grid := [], entity_positions := [] }

/-- `SpatialGrid._get_cell(x, y)` — `int(x // cell_size)` on floats is the
floor of the exact quotient. -/
def SpatialGrid.get_cell (g : SpatialGrid) (x y : ℚ) : ℤ × ℤ :=
  (⌊x / (g.cell_size : ℚ)⌋, ⌊y / (g.cell_size : ℚ)⌋)

/-- Cell lookup in `self.grid` (an association list in place of the Python
dict keyed by the `(col, row)` tuple). -/
def gridGet (m : List ((ℤ × ℤ) × List String)) (c : ℤ × ℤ) :
    Option (List String) :=
  (m.find? (fun kv => kv.1 = c)).map (·.2)

/-- `self.grid[cell] = s` (replace in place or append). -/
def gridSet (m : List ((ℤ × ℤ) × List String)) (c : ℤ × ℤ)
    (s : List String) : List ((ℤ × ℤ) × List String) :=
  if m.any (fun kv => kv.1 = c) then
    m.map (fun kv => if kv.1 = c then (c, s) else kv)
  else
    m ++ [(c, s)]

/-- `SpatialGrid.insert(entity)`. -/
def SpatialGrid.insert (g : SpatialGrid) (e : Entity) : SpatialGrid :=
  let cell := g.get_cell e.x e.y
  let cellSet := (gridGet g.grid cell).getD []
  { g with grid := gridSet g.grid cell (setAdd cellSet e.entity_id),
           entity_positions :=
             dictSet g.entity_positions e.entity_id cell }

/-- `SpatialGrid.remove(entity)`: a no-op when the id is untracked. -/
def SpatialGrid.remove (g : SpatialGrid) (e : Entity) : SpatialGrid :=
  match dictGet g.entity_positions e.entity_id with
  | none => g
  | some cell =>
    let grid2 :=
      match gridGet g.grid cell with
      | none => g.grid
      | some s => gridSet g.grid cell (setDiscard s e.entity_id)
    { g with grid := grid2,
             entity_positions := dictDel g.entity_positions e.entity_id }

/-- `SpatialGrid.update(entity)`: move the id between cell sets only when
the cell derived from the current position differs from the recorded
one.  (The Python `if old_cell and old_cell in self.grid` truthiness
test on a tuple is always true for a present entry, since a 2-tuple is
truthy; it is embedded as the `some` match.) -/
def SpatialGrid.update (g : SpatialGrid) (e : Entity) : SpatialGrid :=
  let new_cell := g.get_cell e.x e.y
  let old_cell := dictGet g.entity_positions e.entity_id
  if old_cell = some new_cell then g
  else
    let grid1 :=
      match old_cell with
      | none => g.grid
      | some oc =>
        match gridGet g.grid oc with
        | none => g.grid
        | some s => gridSet g.grid oc (setDiscard s e.entity_id)
    let cellSet := (gridGet grid1 new_cell).getD []
    { g with grid := gridSet grid1 new_cell (setAdd cellSet e.entity_id),
             entity_positions :=
               dictSet g.entity_positions e.entity_id new_cell }

/-! ### Area (backend/simulation/area.py) -/

/-- `DEF_AREA_WIDTH` / `DEF_AREA_HEIGHT` (backend/config.py). -/
def DEF_AREA_WIDTH : ℤ := 1000
def DEF_AREA_HEIGHT : ℤ := 1000

/-- `TICK_RATE = 10`, `TICK_DURATION = 1.0 / TICK_RATE` (backend/config.py). -/
def TICK_DURATION : ℚ := 1 / 10

structure Area where
  area_id : Option String
  area_name : String
  width : ℤ
  height : ℤ
  entities : List (String × Entity)
  player_controller : Option PlayerCharacter
  spatial_grid : SpatialGrid
  dirty_entities : List String
  removed_entities : List String
deriving DecidableEq

/-- `Area.__init__(area_id, area_name)`. -/
def mkArea (area_id : Option String := none)
    (area_name : String := "Untitled Area") : Area :=
  { area_id := area_id, area_name := area_name,
    width := DEF_AREA_WIDTH, height := DEF_AREA_HEIGHT,
    entities := [], player_controller := none,
    spatial_grid := mkSpatialGrid DEF_AREA_WIDTH DEF_AREA_HEIGHT,
    dirty_entities := [], removed_entities := [] }

/-- `Area.add_entity(entity)`: map insert, spatial insert, mark dirty. -/
def Area.add_entity (a : Area) (e : Entity) : Area :=
  { a with entities := dictSet a.entities e.entity_id e,
           spatial_grid := a.spatial_grid.insert e,
           dirty_entities := setAdd a.dirty_entities e.entity_id }

/-- `Area.remove_entity(entity_id)`: when present, remove from the spatial
grid and the map and record into `removed_entities`; otherwise no-op. -/
def Area.remove_entity (a : Area) (entity_id : String) : Area :=
  match dictGet a.entities entity_id with
  | none => a
  | some e =>
    { a with spatial_grid := a.spatial_grid.remove e,
             entities := dictDel a.entities entity_id,
             removed_entities := setAdd a.removed_entities entity_id }

/-- `Area.process_player_action(action)`: delegate to the attached
controller's `execute_action`, then mark every controlled entity that is
in the map dirty.  In the source the controller's entity objects alias
the map's; the embedding realises the aliasing by writing each (possibly
mutated) controlled entity back into the map entry of its id. -/
def Area.process_player_action (a : Area) (action : ActionData) : Area :=
  match a.player_controller with
  | none => a
  | some pc =>
    let pc2 := pc.execute_action action
    let ents := pc2.controlled_entity_objs.foldl
      (fun m e => if dictHas m e.entity_id then dictSet m e.entity_id e else m)
      a.entities
    let dirty := pc2.controlled_entity_objs.foldl
      (fun d e => if dictHas ents e.entity_id then setAdd d e.entity_id else d)
      a.dirty_entities
    { a with player_controller := some pc2, entities := ents,
             dirty_entities := dirty }

/-- `Area.process_party_command(command)`: look the member up by
`member_id`, deliver `receive_command`, mark that entity dirty. -/
def Area.process_party_command (a : Area) (command : ActionData) : Area :=
  match command.member_id with
  | none => a
  | some mid =>
    match dictGet a.entities mid with
    | none => a
    | some e =>
      { a with entities := dictSet a.entities mid (e.receive_command command),
               dirty_entities := setAdd a.dirty_entities mid }

/-- `Area.update(delta_time)`: advance every entity; for each entity whose
`is_dirty` flag is set afterwards, accumulate its id into
`dirty_entities` and reset the flag.  Note that the spatial grid is not
touched here — the source's update loop never calls
`SpatialGrid.update`. -/
def Area.update (a : Area) (delta_time : ℚ) : Area :=
  let step := fun (acc : List (String × Entity) × List String)
      (kv : String × Entity) =>
    let e2 := kv.2.update delta_time
    if e2.is_dirty then
      (acc.1 ++ [(kv.1, { e2 with is_dirty := false })],
       setAdd acc.2 kv.1)
    else
      (acc.1 ++ [(kv.1, e2)], acc.2)
  let r := a.entities.foldl step ([], a.dirty_entities)
  { a with entities := r.1, dirty_entities := r.2 }

/-- The non-empty delta structure built by `Area.get_state_delta`. -/
structure Delta where
  entities : List (String × EntitySnapshot)
  removed : List String
deriving DecidableEq

/-- `Area.get_state_delta()`: `{}` (here `none`) when both accumulation
sets are empty; otherwise serialize each dirty id still present in the
map, list the removed ids, and clear both sets. -/
def Area.get_state_delta (a : Area) : Option Delta × Area :=
  if a.dirty_entities = [] ∧ a.removed_entities = [] then
    (none, a)
  else
    let d : Delta :=
      { entities := a.dirty_entities.foldl
          (fun acc eid =>
            match dictGet a.entities eid with
            | some e => acc ++ [(eid, e.serialize)]
            | none => acc) [],
        removed := a.removed_entities }
    (some d, { a with dirty_entities := [], removed_entities := [] })

/-- `Area.get_full_state()`. -/
def Area.get_full_state (a : Area) :
    List (String × EntitySnapshot) × (ℤ × ℤ) :=
  (a.entities.map (fun kv => (kv.1, kv.2.serialize)), (a.width, a.height))

/-! ### GameLoop (backend/game_loop.py)

`time.time()` readings inside a drain are abstracted by an oracle
`overBudget : ℕ → Bool`: `overBudget k` is the outcome of the k-th
`self.tick_start + TICK_DURATION < time.time()` check of that drain.
Applying one queued item to the world may raise, which is modelled by an
`Except`-valued application function; the concrete loop instantiates it
with the (total) `Area` operations. -/

structure GameLoop where
  current_area : Option Area
  running : Bool
  paused : Bool
  tick_count : ℕ
  player_action_queue : List ActionData
  party_command_queue : List ActionData
deriving DecidableEq

/-- `GameLoop.__init__(socketio)` (the transport handle itself is outside
the embedding). -/
def mkGameLoop : GameLoop :=
  { current_area := none, running := false, paused := false,
    tick_count := 0, player_action_queue := [], party_command_queue := [] }

/-- The guard of the `while` loop inside `queue_player_action` /
`queue_party_command`: `self.running and not self.paused`. -/
def queueGuard (gl : GameLoop) : Bool :=
  gl.running && !gl.paused

/-- One iteration of `queue_player_action`'s `while` body: append the
payload to the intake queue.  Neither `running` nor `paused` changes. -/
def queueBody (gl : GameLoop) (action : ActionData) : GameLoop :=
  { gl with player_action_queue := gl.player_action_queue ++ [action] }

/-- The state of `queue_player_action(action)` after at most `n` executed
iterations of its `while self.running and not self.paused:` loop (the
loop body only appends, so iterating the guarded step is the exact
small-step semantics of the loop; the call returns only if some
iteration finds the guard false). -/
def queuePlayerActionIter (gl : GameLoop) (action : ActionData) :
    ℕ → GameLoop
  | 0 => gl
  | n + 1 =>
    let g := queuePlayerActionIter gl action n
    if queueGuard g then queueBody g action else g

/-- Outcome of one drain: the successfully applied items in order, the
fault that escaped (if any), the world state reached, and what is left
in the intake queue. -/
structure DrainResult (S P E : Type) where
  processed : List P
  fault : Option E
  state : S
  queue : List P
deriving DecidableEq

/-- The drain loop shared by `process_player_actions` and
`process_party_commands` (game_loop.py lines 49–54 / 59–63):

    while queue and self.running and not self.paused:
        if self.tick_start + TICK_DURATION < time.time(): break
        item = queue.pop(0)
        apply(item)        # no try/except around this call

`n` numbers the budget checks for the oracle.  An `Except.error` from
`apply` models an exception: it escapes the loop (there is no handler),
with the faulty item already popped.  -/
def drainAux {S P E : Type} (running paused : Bool) (overBudget : ℕ → Bool)
    (apply : S → P → Except E S) (s : S) (n : ℕ) :
    List P → DrainResult S P E
  | [] => ⟨[], none, s, []⟩
  | p :: rest =>
    if running && !paused then
      if overBudget n then ⟨[], none, s, p :: rest⟩
      else
        match apply s p with
        | Except.ok s2 =>
          let r := drainAux running paused overBudget apply s2 (n + 1) rest
          ⟨p :: r.processed, r.fault, r.state, r.queue⟩
        | Except.error err => ⟨[], some err, s, rest⟩
    else ⟨[], none, s, p :: rest⟩

/-- `GameLoop.process_player_actions`: early return when no area is
loaded; otherwise drain the action queue into
`Area.process_player_action` (which raises no exception in the model,
hence the `Except.ok` wrapper). -/
def GameLoop.process_player_actions (gl : GameLoop) (overBudget : ℕ → Bool) :
    GameLoop :=
  match gl.current_area with
  | none => gl
  | some area =>
    let r := drainAux gl.running gl.paused overBudget
      (fun (a : Area) (p : ActionData) =>
        (Except.ok (a.process_player_action p) : Except Unit Area))
      area 0 gl.player_action_queue
    { gl with current_area := some r.state,
              player_action_queue := r.queue }

/-- `GameLoop.process_party_commands`: the same drain over the command
queue and `Area.process_party_command`. -/
def GameLoop.process_party_commands (gl : GameLoop) (overBudget : ℕ → Bool) :
    GameLoop :=
  match gl.current_area with
  | none => gl
  | some area =>
    let r := drainAux gl.running gl.paused overBudget
      (fun (a : Area) (p : ActionData) =>
        (Except.ok (a.process_party_command p) : Except Unit Area))
      area 0 gl.party_command_queue
    { gl with current_area := some r.state,
              party_command_queue := r.queue }

/-- One iteration of `GameLoop.run`'s `while self.running:` body, after
the pause wait: drain both queues, then `self.current_area.update(...)`,
`self.current_area.get_state_delta()`, emit when non-empty, and bump the
tick counter.  The two drain helpers guard against a missing area, but
the update/delta lines dereference `self.current_area` unconditionally —
with no area loaded the tick body raises (`None` has no `update`),
modelled as `none`.  The produced value carries the emitted delta, if
any, tagged with the tick number it was emitted under. -/
def GameLoop.tickBody (gl : GameLoop) (overA overC : ℕ → Bool) :
    Option (GameLoop × Option (ℕ × Delta)) :=
  let gl1 := gl.process_player_actions overA
  let gl2 := gl1.process_party_commands overC
  match gl2.current_area with
  | none => none
  | some area =>
    let area2 := area.update TICK_DURATION
    let (delta, area3) := area2.get_state_delta
    let emitted := delta.map (fun d => (gl2.tick_count, d))
    some ({ gl2 with current_area := some area3,
                     tick_count := gl2.tick_count + 1 }, emitted)

/-! ### Concrete fixtures used by the theorems below -/

/-- A loop with an area loaded, running and un-paused. -/
def glRunning : GameLoop :=
  { mkGameLoop with running := true, paused := false,
                    current_area := some mkArea }

/-- A loop with an area loaded, stopped. -/
def glStopped : GameLoop :=
  { mkGameLoop with running := false, paused := false,
                    current_area := some mkArea }

/-- A fallible application function for exercising the drain: payload 0
raises, any other payload is added to the accumulator state. -/
def faultyApply (s p : ℕ) : Except Unit ℕ :=
  if p = 0 then Except.error () else Except.ok (s + p)

/-! ### Helper lemmas -/

theorem setAdd_self_mem (s : List String) (x : String) : x ∈ setAdd s x := by
  unfold setAdd
  split
  · assumption
  · simp

theorem setAdd_mem_of_mem (s : List String) (x y : String) (h : y ∈ s) :
    y ∈ setAdd s x := by
  unfold setAdd
  split
  · exact h
  · exact List.mem_append_left _ h

theorem dictGet_dictSet_self {α : Type} (m : List (String × α)) (k : String)
    (v : α) : dictGet (dictSet m k v) k = some v := by
  unfold dictGet dictSet
  split
  · next hany =>
    induction m with
    | nil => simp at hany
    | cons kv tl ih =>
      by_cases hk : kv.1 = k
      · simp [List.find?, hk]
      · simp only [List.map_cons, if_neg hk]
        have htl : tl.any (fun kv => kv.1 = k) = true := by
          rcases List.any_eq_true.mp hany with ⟨x, hx, hxk⟩
          rcases List.mem_cons.mp hx with h1 | h2
          · exact absurd (by simpa [h1] using hxk) hk
          · exact List.any_eq_true.mpr ⟨x, h2, hxk⟩
        have := ih htl
        simpa [List.find?, hk] using this
  · induction m with
    | nil => simp [List.find?]
    | cons kv tl ih =>
      next hany =>
      have hk : ¬ (kv.1 = k) := by
        intro hk
        exact hany (List.any_eq_true.mpr ⟨kv, List.mem_cons_self _ _, by simp [hk]⟩)
      have htl : ¬ tl.any (fun kv => kv.1 = k) = true := by
        intro h
        rcases List.any_eq_true.mp h with ⟨x, hx, hxk⟩
        exact hany (List.any_eq_true.mpr ⟨x, List.mem_cons_of_mem _ hx, hxk⟩)
      simpa [List.find?, hk] using ih htl

theorem dictHas_iff_dictGet {α : Type} (m : List (String × α)) (k : String) :
    dictHas m k = true ↔ (dictGet m k).isSome = true := by
  unfold dictHas dictGet
  simp [List.any_eq_true, List.find?_isSome]

/-! ### C8 — Entity.update -/

/-- C8: for every entity and dt, if both velocity components are zero then
`update(dt)` leaves the entity (in particular its position and dirty
flag) unchanged; if the velocity is non-zero then the position advances
by `(vx*dt, vy*dt)` and the dirty flag becomes true. -/
theorem entity_update_spec (e : Entity) (dt : ℚ) :
    (e.vx = 0 ∧ e.vy = 0 → e.update dt = e) ∧
    (e.vx ≠ 0 ∨ e.vy ≠ 0 →
      (e.update dt).x = e.x + e.vx * dt ∧
      (e.update dt).y = e.y + e.vy * dt ∧
      (e.update dt).is_dirty = true) := by
  constructor
  · rintro ⟨hx, hy⟩
    simp [Entity.update, hx, hy]
  · intro h
    rw [Entity.update, if_pos h]
    exact ⟨rfl, rfl, rfl⟩

/-- Witness for C8 at concrete entities: a still entity is untouched, an
entity with velocity (3, 0) advances by (3, 0) over dt = 1 and is dirty. -/
theorem entity_update_spec_witness :
    ((defaultEntity "w" (some 2) (some 5)).update 1
        = defaultEntity "w" (some 2) (some 5)) ∧
    (({ defaultEntity "w" (some 2) (some 5) with vx := 3 }).update 1).x = 5 ∧
    (({ defaultEntity "w" (some 2) (some 5) with vx := 3 }).update 1).is_dirty
      = true := by
  refine ⟨(entity_update_spec _ 1).1 ⟨rfl, rfl⟩, ?_, ?_⟩
  · have h := (entity_update_spec
      ({ defaultEntity "w" (some 2) (some 5) with vx := 3 }) 1).2
      (Or.inl (by norm_num))
    rw [h.1]
    norm_num [defaultEntity, mkEntity]
  · exact ((entity_update_spec
      ({ defaultEntity "w" (some 2) (some 5) with vx := 3 }) 1).2
      (Or.inl (by norm_num))).2.2

/-! ### C5 — Area.get_state_delta is consume-once -/

/-- C5: for every world state, `get_state_delta` leaves both the
dirty-entity set and the removed-entity set empty, so a second
consecutive call (with no intervening mutation) returns the empty
result. -/
theorem get_state_delta_consume_once (a : Area) :
    (a.get_state_delta.2.dirty_entities = [] ∧
     a.get_state_delta.2.removed_entities = []) ∧
    (a.get_state_delta.2.get_state_delta).1 = none := by
  have hsets : a.get_state_delta.2.dirty_entities = [] ∧
      a.get_state_delta.2.removed_entities = [] := by
    unfold Area.get_state_delta
    by_cases h : a.dirty_entities = [] ∧ a.removed_entities = []
    · simp [h]
    · simp [h]
  refine ⟨hsets, ?_⟩
  rw [Area.get_state_delta, if_pos hsets]

/-! ### C9 — re-adding an id never cancels a pending removal record -/

theorem dictHas_append_left {α : Type} (m1 m2 : List (String × α))
    (k : String) (h : dictHas m1 k = true) : dictHas (m1 ++ m2) k = true := by
  unfold dictHas at h ⊢
  simp [List.any_append, h]

/-- The delta-entity fold of `Area.get_state_delta` only appends, so an
id already recorded in the accumulator stays recorded. -/
theorem deltaFold_mono (ents : List (String × Entity)) (k : String) :
    ∀ (l : List String) (acc : List (String × EntitySnapshot)),
      dictHas acc k = true →
      dictHas (l.foldl (fun acc eid =>
        match dictGet ents eid with
        | some e => acc ++ [(eid, e.serialize)]
        | none => acc) acc) k = true := by
  intro l
  induction l with
  | nil => intro acc h; exact h
  | cons hd tl ih =>
    intro acc h
    rw [List.foldl_cons]
    cases hcase : dictGet ents hd with
    | none => exact ih acc h
    | some e2 => exact ih _ (dictHas_append_left _ _ _ h)

/-- An id that is in the dirty list and present in the entity map is
recorded by the delta-entity fold. -/
theorem deltaFold_has (ents : List (String × Entity)) (k : String)
    (e : Entity) (hg : dictGet ents k = some e) :
    ∀ (dirty : List String) (acc : List (String × EntitySnapshot)),
      k ∈ dirty →
      dictHas (dirty.foldl (fun acc eid =>
        match dictGet ents eid with
        | some e => acc ++ [(eid, e.serialize)]
        | none => acc) acc) k = true := by
  intro dirty
  induction dirty with
  | nil => intro acc hk; cases hk
  | cons hd tl ih =>
    intro acc hk
    rw [List.foldl_cons]
    rcases List.mem_cons.mp hk with h1 | h2
    · subst h1
      rw [hg]
      refine deltaFold_mono ents k tl _ ?_
      unfold dictHas
      simp
    · cases hcase : dictGet ents hd with
      | none => exact ih acc h2
      | some e2 => exact ih _ h2

/-- C9: if an id is removed via `remove_entity` and an entity with the
same id is re-added via `add_entity` before the next delta collection,
the next delta lists the id both in its entities map and in its removed
list — `add_entity` never cancels a pending removal record. -/
theorem readd_keeps_removal (a : Area) (e : Entity)
    (h : dictHas a.entities e.entity_id = true) :
    ∃ d : Delta,
      (((a.remove_entity e.entity_id).add_entity e).get_state_delta).1 = some d ∧
      dictHas d.entities e.entity_id = true ∧
      e.entity_id ∈ d.removed := by
  obtain ⟨e0, he0⟩ : ∃ e0, dictGet a.entities e.entity_id = some e0 :=
    Option.isSome_iff_exists.mp ((dictHas_iff_dictGet _ _).mp h)
  have hrm : a.remove_entity e.entity_id =
      { a with spatial_grid := a.spatial_grid.remove e0,
               entities := dictDel a.entities e.entity_id,
               removed_entities := setAdd a.removed_entities e.entity_id } := by
    rw [Area.remove_entity, he0]
  set a2 := (a.remove_entity e.entity_id).add_entity e with ha2
  have hdirty : e.entity_id ∈ a2.dirty_entities := by
    rw [ha2, Area.add_entity]
    exact setAdd_self_mem _ _
  have hremoved : e.entity_id ∈ a2.removed_entities := by
    rw [ha2, Area.add_entity, hrm]
    exact setAdd_self_mem _ _
  have hget : dictGet a2.entities e.entity_id = some e := by
    rw [ha2, Area.add_entity]
    exact dictGet_dictSet_self _ _ _
  have hcond : ¬ (a2.dirty_entities = [] ∧ a2.removed_entities = []) := by
    rintro ⟨h1, _⟩
    rw [h1] at hdirty
    cases hdirty
  rw [Area.get_state_delta, if_neg hcond]
  refine ⟨_, rfl, ?_, hremoved⟩
  exact deltaFold_has a2.entities e.entity_id e hget a2.dirty_entities [] hdirty

/-- Witness for C9: a world holding one entity `"e1"`; removing and
re-adding it yields a delta carrying `"e1"` in both fields. -/
theorem readd_keeps_removal_witness :
    ∃ d : Delta,
      ((((mkArea.add_entity (defaultEntity "e1" (some 0) (some 0))).remove_entity
          (defaultEntity "e1" (some 0) (some 0)).entity_id).add_entity
          (defaultEntity "e1" (some 0) (some 0))).get_state_delta).1 = some d ∧
      dictHas d.entities (defaultEntity "e1" (some 0) (some 0)).entity_id = true ∧
      (defaultEntity "e1" (some 0) (some 0)).entity_id ∈ d.removed :=
  readd_keeps_removal (mkArea.add_entity (defaultEntity "e1" (some 0) (some 0)))
    (defaultEntity "e1" (some 0) (some 0)) (by rfl)

/-! ### C3 — the spatial index goes stale across `Area.update` -/

/-- C3 (failing run): an entity sitting at x = 0 (cell (0,0) with the
default cell size 32) with velocity (32, 0) is added and one
`update(1.0)` is run.  Afterwards the entity map holds it at x = 32,
whose cell is (1, 0), yet the spatial index still records cell (0, 0)
for its id — `Area.update` advances positions without ever calling
`SpatialGrid.update`, so the index is no longer in sync with the map. -/
theorem area_update_spatial_desync :
    (dictGet
        ((mkArea.add_entity
            { defaultEntity "e1" (some 0) (some 0) with vx := 32 }).update 1).entities
        "e1").map
      (fun e1 =>
        (((mkArea.add_entity
            { defaultEntity "e1" (some 0) (some 0) with vx := 32 }).update
              1).spatial_grid.get_cell e1.x e1.y, e1.x)) = some ((1, 0), 32) ∧
    dictGet
        ((mkArea.add_entity
            { defaultEntity "e1" (some 0) (some 0) with vx := 32 }).update
              1).spatial_grid.entity_positions "e1" = some (0, 0) := by
  constructor <;>
    norm_num [mkArea, Area.add_entity, Area.update, Entity.update,
      defaultEntity, mkEntity, SpatialGrid.insert, SpatialGrid.get_cell,
      mkSpatialGrid, gridGet, gridSet, setAdd, dictSet, dictGet, dictHas,
      List.find?, List.foldl, DEF_AREA_WIDTH, DEF_AREA_HEIGHT]

/-! ### C4 — appearance fields do not survive a save/load round trip -/

/-- C4 (failing run): an entity with `hair_style = 1` is saved; the file
carries `hair_style: 1`, but `load_from_file` never reads the
`hair_style`/`hair_color`/eye fields back (it reads an `appearance` key
the save never writes), so the loaded entity reverts to the constructor
default 0 and the serialized snapshot differs from the original's. -/
theorem save_load_drops_appearance :
    ((Entity.load_from_file
        (Entity.save_to_file
          { defaultEntity "e4" (some 0) (some 0) with hair_style := 1 })).serialize
      ≠ ({ defaultEntity "e4" (some 0) (some 0) with hair_style := 1 }).serialize) ∧
    (Entity.save_to_file
        { defaultEntity "e4" (some 0) (some 0) with hair_style := 1 }).hair_style
      = 1 ∧
    (Entity.load_from_file
        (Entity.save_to_file
          { defaultEntity "e4" (some 0) (some 0) with hair_style := 1 })).hair_style
      = 0 := by
  refine ⟨?_, rfl, rfl⟩
  intro h
  have h2 := congrArg EntitySnapshot.hair_style h
  simp only [Entity.serialize] at h2
  norm_num [Entity.load_from_file, Entity.save_to_file, defaultEntity,
    mkEntity] at h2

/-! ### C1 — queue_player_action appends forever / never, not exactly once -/

/-- C1 (failing run): `queue_player_action`'s body is
`while self.running and not self.paused: queue.append(action)`.
On the stopped loop the guard is false at entry, so the call returns with
nothing appended (the queue stays empty instead of gaining the payload
once).  On the running un-paused loop every iterate of the while loop
still satisfies the guard — the body never changes `running`/`paused` —
so the loop can never exit, and after n iterations the payload sits in
the queue n times, not once. -/
theorem queue_player_action_broken :
    (queueGuard glStopped = false ∧
     glStopped.player_action_queue = [] ∧
     (∀ n, queuePlayerActionIter glStopped (movePayload 0 1) n = glStopped)) ∧
    (∀ n, queueGuard (queuePlayerActionIter glRunning (movePayload 0 1) n) = true ∧
       (queuePlayerActionIter glRunning (movePayload 0 1) n).player_action_queue
         = List.replicate n (movePayload 0 1)) := by
  constructor
  · refine ⟨rfl, rfl, ?_⟩
    intro n
    induction n with
    | zero => rfl
    | succ n ih =>
      rw [queuePlayerActionIter, ih]
      rfl
  · intro n
    induction n with
    | zero => exact ⟨rfl, rfl⟩
    | succ n ih =>
      rw [queuePlayerActionIter, ih.1]
      constructor
      · simp only [if_true]
        exact ih.1
      · simp only [if_true, queueBody, ih.2]
        rw [← List.replicate_succ']

/-! ### C10 — a loaded area is a precondition of the tick body -/

/-- C10: `GameLoop.run`'s tick body dereferences `current_area`
unconditionally (only the drain helpers guard against its absence): with
no area loaded the first tick faults, and with an area loaded the tick
body's area accesses succeed and it keeps an area loaded. -/
theorem tick_body_area_precondition (gl : GameLoop) (overA overC : ℕ → Bool) :
    (gl.current_area = none → gl.tickBody overA overC = none) ∧
    (∀ a, gl.current_area = some a →
      ∃ gl2 d, gl.tickBody overA overC = some (gl2, d) ∧
        gl2.current_area.isSome = true) := by
  constructor
  · intro h
    rw [GameLoop.tickBody, GameLoop.process_player_actions, h]
    rw [GameLoop.process_party_commands, h]
    rw [h]
  · intro a h
    rw [GameLoop.tickBody, GameLoop.process_player_actions, h]
    rw [GameLoop.process_party_commands]
    exact ⟨_, _, rfl, rfl⟩

/-- Witness for C10: the tick body faults on a started loop with no area
(`current_area = None`) and succeeds on one with an area loaded. -/
theorem tick_body_area_precondition_witness :
    ({ mkGameLoop with running := true } : GameLoop).tickBody
        (fun _ => false) (fun _ => false) = none ∧
    ∃ gl2 d, glStopped.tickBody (fun _ => false) (fun _ => false)
        = some (gl2, d) ∧ gl2.current_area.isSome = true :=
  ⟨(tick_body_area_precondition { mkGameLoop with running := true }
      (fun _ => false) (fun _ => false)).1 rfl,
   (tick_body_area_precondition glStopped
      (fun _ => false) (fun _ => false)).2 mkArea rfl⟩

/-! ### C6 — FIFO drain with a time budget loses and reorders nothing -/

/-- A fault-free drain splits the queue at the first over-budget check:
the processed items are exactly the first k queue entries applied
left-to-right (FIFO), the remainder survives in order, no check before
the k-th was over budget, and the drain stopped either on queue
exhaustion or on the k-th check. -/
theorem drainAux_fifo {S P : Type} (overBudget : ℕ → Bool) (f : S → P → S) :
    ∀ (q : List P) (s : S) (n : ℕ),
      ∃ k, k ≤ q.length ∧
        drainAux true false overBudget
            (fun s p => (Except.ok (f s p) : Except Unit S)) s n q
          = ⟨q.take k, none, (q.take k).foldl f s, q.drop k⟩ ∧
        (∀ i < k, overBudget (n + i) = false) ∧
        (k = q.length ∨ overBudget (n + k) = true) := by
  intro q
  induction q with
  | nil =>
    intro s n
    exact ⟨0, Nat.le_refl 0, rfl, fun i hi => absurd hi (Nat.not_lt_zero i),
      Or.inl rfl⟩
  | cons p rest ih =>
    intro s n
    by_cases hb : overBudget n = true
    · refine ⟨0, Nat.zero_le _, ?_, fun i hi => absurd hi (Nat.not_lt_zero i),
        Or.inr (by simpa using hb)⟩
      rw [drainAux]
      simp [hb]
    · obtain ⟨k, hk, hd, hlt, hstop⟩ := ih (f s p) (n + 1)
      refine ⟨k + 1, Nat.succ_le_succ hk, ?_, ?_, ?_⟩
      · rw [drainAux]
        simp only [Bool.and_self, Bool.not_false, Bool.and_true, if_true,
          hb, if_false, Bool.false_eq_true]
        rw [hd]
        simp [List.take_succ_cons, List.drop_succ_cons]
      · intro i hi
        cases i with
        | zero => simpa using hb
        | succ j =>
          have : j < k := Nat.lt_of_succ_lt_succ hi
          have := hlt j this
          simpa [Nat.add_assoc, Nat.add_comm 1 j] using this
      · rcases hstop with h1 | h2
        · exact Or.inl (by simp [h1])
        · exact Or.inr (by simpa [Nat.add_assoc, Nat.add_comm 1 k] using h2)

/-- C6: on a running un-paused loop with an area loaded, each per-tick
drain helper hands the first k queued items to the world state in FIFO
order (a left fold over the taken prefix), stops early at the first
over-budget time check, and leaves every unprocessed item in its queue
in the original order — nothing is dropped or reordered
(`take k ++ drop k = queue`). -/
theorem drain_fifo_budget (gl : GameLoop) (a : Area) (overBudget : ℕ → Bool)
    (hr : gl.running = true) (hp : gl.paused = false)
    (ha : gl.current_area = some a) :
    (∃ k, k ≤ gl.player_action_queue.length ∧
      gl.process_player_actions overBudget =
        { gl with
            current_area := some ((gl.player_action_queue.take k).foldl
              Area.process_player_action a),
            player_action_queue := gl.player_action_queue.drop k } ∧
      gl.player_action_queue.take k ++ gl.player_action_queue.drop k
        = gl.player_action_queue ∧
      (∀ i < k, overBudget i = false) ∧
      (k = gl.player_action_queue.length ∨ overBudget k = true)) ∧
    (∃ k, k ≤ gl.party_command_queue.length ∧
      gl.process_party_commands overBudget =
        { gl with
            current_area := some ((gl.party_command_queue.take k).foldl
              Area.process_party_command a),
            party_command_queue := gl.party_command_queue.drop k } ∧
      gl.party_command_queue.take k ++ gl.party_command_queue.drop k
        = gl.party_command_queue ∧
      (∀ i < k, overBudget i = false) ∧
      (k = gl.party_command_queue.length ∨ overBudget k = true)) := by
  constructor
  · obtain ⟨k, hk, hd, hlt, hstop⟩ :=
      drainAux_fifo overBudget Area.process_player_action
        gl.player_action_queue a 0
    refine ⟨k, hk, ?_, List.take_append_drop k _, by simpa using hlt,
      by simpa using hstop⟩
    rw [GameLoop.process_player_actions, ha, hr, hp]
    dsimp only
    rw [hd]
  · obtain ⟨k, hk, hd, hlt, hstop⟩ :=
      drainAux_fifo overBudget Area.process_party_command
        gl.party_command_queue a 0
    refine ⟨k, hk, ?_, List.take_append_drop k _, by simpa using hlt,
      by simpa using hstop⟩
    rw [GameLoop.process_party_commands, ha, hr, hp]
    dsimp only
    rw [hd]

/-- Witness for C6: the running loop with two queued move actions and a
budget that is exceeded from the first check processes nothing and keeps
both items queued in order. -/
theorem drain_fifo_budget_witness :
    (∃ k, k ≤ ({ glRunning with
        player_action_queue := [movePayload 0 1, movePayload 1 0]
          } : GameLoop).player_action_queue.length ∧
      ({ glRunning with
        player_action_queue := [movePayload 0 1, movePayload 1 0]
          } : GameLoop).process_player_actions (fun _ => true) =
        { ({ glRunning with
            player_action_queue := [movePayload 0 1, movePayload 1 0]
              } : GameLoop) with
            current_area := some ((([movePayload 0 1, movePayload 1 0].take
              k).foldl Area.process_player_action) mkArea),
            player_action_queue :=
              [movePayload 0 1, movePayload 1 0].drop k } ∧
      [movePayload 0 1, movePayload 1 0].take k
          ++ [movePayload 0 1, movePayload 1 0].drop k
        = [movePayload 0 1, movePayload 1 0] ∧
      (∀ i < k, (fun (_ : ℕ) => true) i = false) ∧
      (k = ([movePayload 0 1, movePayload 1 0] : List ActionData).length ∨
        (fun (_ : ℕ) => true) k = true)) ∧
    (∃ k, k ≤ ({ glRunning with
        player_action_queue := [movePayload 0 1, movePayload 1 0]
          } : GameLoop).party_command_queue.length ∧
      ({ glRunning with
        player_action_queue := [movePayload 0 1, movePayload 1 0]
          } : GameLoop).process_party_commands (fun _ => true) =
        { ({ glRunning with
            player_action_queue := [movePayload 0 1, movePayload 1 0]
              } : GameLoop) with
            current_area := some ((([] : List ActionData).take k).foldl
              Area.process_party_command mkArea),
            party_command_queue := ([] : List ActionData).drop k } ∧
      ([] : List ActionData).take k ++ ([] : List ActionData).drop k
        = ([] : List ActionData) ∧
      (∀ i < k, (fun (_ : ℕ) => true) i = false) ∧
      (k = ([] : List ActionData).length ∨ (fun (_ : ℕ) => true) k = true)) :=
  drain_fifo_budget
    ({ glRunning with
        player_action_queue := [movePayload 0 1, movePayload 1 0] })
    mkArea (fun _ => true) rfl rfl rfl

/-! ### C2 — a fault while applying one queued item is NOT caught -/

/-- C2 counterexample: drain the queue `[0, 5]` (item 0 raises, item 5
would succeed) on a running un-paused loop with the budget never
exceeded.  The claim — the drain catches the exception, discards the
item and continues with the remaining queued items — would leave no
fault escaping and an empty remaining queue; the embedded drain (which,
like the source, has no try/except) instead lets the fault escape with
item 5 never applied. -/
theorem drain_fault_not_caught :
    ¬ ((drainAux true false (fun _ => false) faultyApply 0 0 [0, 5]).fault
          = none ∧
       (drainAux true false (fun _ => false) faultyApply 0 0 [0, 5]).queue
          = []) := by
  decide

/-- C2 as amended: an exception raised while applying one queued item
propagates out of the drain step (aborting the tick — there is no
handler in the drain or in `run`); the faulty item has already been
popped from the queue, the items drained before it were applied in FIFO
order, and every remaining item stays in the queue in its original
order: `queue = processed ++ faulty :: remaining`. -/
theorem drain_fault_aborts_tick {S P E : Type} (overBudget : ℕ → Bool)
    (apply : S → P → Except E S) :
    ∀ (q : List P) (s : S) (n : ℕ) (err : E),
      (drainAux true false overBudget apply s n q).fault = some err →
      ∃ p, q = (drainAux true false overBudget apply s n q).processed
              ++ p :: (drainAux true false overBudget apply s n q).queue ∧
        apply (drainAux true false overBudget apply s n q).state p
          = Except.error err := by
  intro q
  induction q with
  | nil =>
    intro s n err h
    rw [drainAux] at h
    cases h
  | cons p rest ih =>
    intro s n err h
    rw [drainAux] at h ⊢
    simp only [Bool.not_false, Bool.and_self, if_true] at h ⊢
    by_cases hb : overBudget n = true
    · rw [if_pos hb] at h
      cases h
    · rw [if_neg hb] at h ⊢
      cases happ : apply s p with
      | ok s2 =>
        rw [happ] at h
        dsimp only at h ⊢
        obtain ⟨p2, hsplit, herr⟩ := ih s2 (n + 1) err h
        exact ⟨p2, by rw [List.cons_append, ← hsplit], herr⟩
      | error e2 =>
        rw [happ] at h
        dsimp only at h ⊢
        cases h
        exact ⟨p, rfl, happ⟩

/-- Witness for C2 as amended, at the concrete faulty drain: the queue
`[0, 5]` splits as `[] ++ 0 :: [5]` around the faulty item 0. -/
theorem drain_fault_aborts_tick_witness :
    ∃ p, ([0, 5] : List ℕ)
        = (drainAux true false (fun _ => false) faultyApply 0 0 [0, 5]).processed
          ++ p :: (drainAux true false (fun _ => false) faultyApply 0 0
              [0, 5]).queue ∧
      faultyApply
          (drainAux true false (fun _ => false) faultyApply 0 0 [0, 5]).state p
        = Except.error () :=
  drain_fault_aborts_tick (fun _ => false) faultyApply [0, 5] 0 0 () (by decide)

/-! ### C7 — the move action translation -/

/-- Evaluation of the per-entity move branch of `execute_action`. -/
theorem applyMove_eval (a : ActionData) (e : Entity) (h : a.type = some "move") :
    applyActionToEntity a e =
      { e with
          vx := (a.direction_x.getD 0) * (50 * e.modifiers.walking_speed),
          vy := (a.direction_y.getD 0) * (50 * e.modifiers.walking_speed),
          state :=
            if (a.direction_x.getD 0) * (50 * e.modifiers.walking_speed) ≠ 0
                ∨ (a.direction_y.getD 0) * (50 * e.modifiers.walking_speed) ≠ 0
            then "moving" else "idle",
          facing :=
            if (a.direction_y.getD 0) * (50 * e.modifiers.walking_speed) < 0
            then "up"
            else if (a.direction_y.getD 0) * (50 * e.modifiers.walking_speed) > 0
            then "down"
            else if (a.direction_x.getD 0) * (50 * e.modifiers.walking_speed) < 0
            then "left"
            else if (a.direction_x.getD 0) * (50 * e.modifiers.walking_speed) > 0
            then "right"
            else e.facing,
          is_dirty := true } := by
  rw [applyActionToEntity, if_pos h]
  dsimp only
  split_ifs <;> rfl

/-- C7: a move payload with direction (dx, dy) routed by `execute_action`
sets each targeted entity's velocity to
`(dx * 50 * walking_speed, dy * 50 * walking_speed)` (base speed 50),
sets state to "moving" exactly when the resulting velocity is non-zero
and "idle" otherwise, marks the entity dirty, and recomputes facing with
vertical priority over horizontal; in particular (with a positive
walking-speed modifier) direction (0, 1) yields facing "down" and state
"moving". -/
theorem move_action_spec (p : PlayerCharacter) (e : Entity) (dx dy : ℚ) :
    ((p.execute_action
        { movePayload dx dy with apply_to_party := true }).controlled_entity_objs
      = p.controlled_entity_objs.map
          (applyActionToEntity { movePayload dx dy with apply_to_party := true })) ∧
    (applyActionToEntity (movePayload dx dy) e).vx
        = dx * 50 * e.modifiers.walking_speed ∧
    (applyActionToEntity (movePayload dx dy) e).vy
        = dy * 50 * e.modifiers.walking_speed ∧
    ((applyActionToEntity (movePayload dx dy) e).state
        = if (applyActionToEntity (movePayload dx dy) e).vx ≠ 0 ∨
              (applyActionToEntity (movePayload dx dy) e).vy ≠ 0
          then "moving" else "idle") ∧
    (applyActionToEntity (movePayload dx dy) e).is_dirty = true ∧
    ((applyActionToEntity (movePayload dx dy) e).vy ≠ 0 →
      (applyActionToEntity (movePayload dx dy) e).facing
        = if (applyActionToEntity (movePayload dx dy) e).vy < 0
          then "up" else "down") ∧
    ((applyActionToEntity (movePayload dx dy) e).vy = 0 →
      (applyActionToEntity (movePayload dx dy) e).vx ≠ 0 →
      (applyActionToEntity (movePayload dx dy) e).facing
        = if (applyActionToEntity (movePayload dx dy) e).vx < 0
          then "left" else "right") ∧
    (0 < e.modifiers.walking_speed → dx = 0 → dy = 1 →
      (applyActionToEntity (movePayload dx dy) e).facing = "down" ∧
      (applyActionToEntity (movePayload dx dy) e).state = "moving") := by
  have hm : applyActionToEntity (movePayload dx dy) e =
      { e with
          vx := dx * (50 * e.modifiers.walking_speed),
          vy := dy * (50 * e.modifiers.walking_speed),
          state :=
            if dx * (50 * e.modifiers.walking_speed) ≠ 0
                ∨ dy * (50 * e.modifiers.walking_speed) ≠ 0
            then "moving" else "idle",
          facing :=
            if dy * (50 * e.modifiers.walking_speed) < 0 then "up"
            else if dy * (50 * e.modifiers.walking_speed) > 0 then "down"
            else if dx * (50 * e.modifiers.walking_speed) < 0 then "left"
            else if dx * (50 * e.modifiers.walking_speed) > 0 then "right"
            else e.facing,
          is_dirty := true } := applyMove_eval (movePayload dx dy) e rfl
  refine ⟨?_, ?_, ?_, ?_, ?_, ?_, ?_, ?_⟩
  · rw [PlayerCharacter.execute_action]
    rfl
  · rw [hm]; ring
  · rw [hm]; ring
  · rw [hm]
  · rw [hm]
  · rw [hm]
    dsimp only
    intro hvy
    by_cases hneg : dy * (50 * e.modifiers.walking_speed) < 0
    · rw [if_pos hneg, if_pos hneg]
    · have hpos : dy * (50 * e.modifiers.walking_speed) > 0 :=
        lt_of_le_of_ne (not_lt.mp hneg) (Ne.symm hvy)
      rw [if_neg hneg, if_pos hpos, if_neg hneg]
  · rw [hm]
    dsimp only
    intro hvy hvx
    have h1 : ¬ dy * (50 * e.modifiers.walking_speed) < 0 := by
      rw [hvy]; exact lt_irrefl 0
    have h2 : ¬ dy * (50 * e.modifiers.walking_speed) > 0 := by
      rw [hvy]; exact lt_irrefl 0
    rw [if_neg h1, if_neg h2]
    by_cases hneg : dx * (50 * e.modifiers.walking_speed) < 0
    · rw [if_pos hneg, if_pos hneg]
    · have hpos : dx * (50 * e.modifiers.walking_speed) > 0 :=
        lt_of_le_of_ne (not_lt.mp hneg) (Ne.symm hvx)
      rw [if_neg hneg, if_pos hpos, if_neg hneg]
  · intro hw hdx hdy
    subst hdx hdy
    have hvy : (0 : ℚ) < 1 * (50 * e.modifiers.walking_speed) := by
      rw [one_mul]
      positivity
    rw [hm]
    dsimp only
    constructor
    · rw [if_neg (not_lt.mpr (le_of_lt hvy)), if_pos hvy]
    · rw [if_pos (Or.inr (ne_of_gt hvy))]

/-- Witness for C7: the default entity (walking-speed modifier 1) moved
with direction (0, 1) ends with velocity (0, 50), facing "down", state
"moving" and the dirty flag set. -/
theorem move_action_spec_witness :
    (applyActionToEntity (movePayload 0 1)
        (defaultEntity "p1" (some 0) (some 0))).facing = "down" ∧
    (applyActionToEntity (movePayload 0 1)
        (defaultEntity "p1" (some 0) (some 0))).state = "moving" :=
  (move_action_spec
      { player_id := "00000000-0000-0000-0000-000000000000",
        player_name := "Player", active_entity_index := 0,
        controlled_entity_ids := ["p1"],
        controlled_entity_objs := [defaultEntity "p1" (some 0) (some 0)],
        controlled_entity_history := ["p1"], entities_controlled := 1 }
      (defaultEntity "p1" (some 0) (some 0)) 0 1).2.2.2.2.2.2.2
    (by norm_num [defaultEntity, mkEntity, defaultModifiers]) rfl rfl

end Sim
